import Mathlib

/-
Verification development for the quant trading backend (src/quant_backend.py).

The numeric state of the program (numpy float64 arrays) is embedded in exact
rational arithmetic.  A value of the form num / sqrt(var) that the program
holds as one float is represented by the pair (num, var) : Rat x Rat; the
pair (q, 1) represents the plain scalar q.  Square roots that the program
takes with numpy are taken exactly with ratSqrt below; when the exact square
root of a rational is irrational the embedding reports that the value is not
representable (this never coincides with a Python exception: the distinction
is kept explicit in the HedgeOut type).

External collaborators of the core (the hidden-Markov model, the ensemble
classifier, the float logarithm) are abstracted by the oracle structure Ext,
exactly as the specification lists them as capability providers.
-/

set_option maxHeartbeats 1000000

namespace QuantBot

/-- Last n elements of a list, as numpy slicing l[-n:] produces them. -/
def takeLast (n : Nat) (l : List ℚ) : List ℚ := l.drop (l.length - n)

/-- First differences, as numpy diff of a one-dimensional array. -/
def diffList : List ℚ → List ℚ
  | [] => []
  | [_] => []
  | a :: b :: t => (b - a) :: diffList (b :: t)

/-- Arithmetic mean, as numpy mean. -/
def mean (xs : List ℚ) : ℚ := xs.sum / (xs.length : ℚ)

/-- Sum of products of deviations from the means, the common core of the
numpy covariance and variance routines. -/
def sumDev (a b : List ℚ) : ℚ :=
  ((a.zip b).map (fun p => (p.1 - mean a) * (p.2 - mean b))).sum

/-- Sample covariance with one delta degree of freedom, as numpy cov with
its default ddof=1 computes the off-diagonal entry of cov(pair1, pair2). -/
def cov1 (a b : List ℚ) : ℚ := sumDev a b / ((a.length : ℚ) - 1)

/-- Sample variance with ddof=1, used inside the numpy correlation. -/
def var1 (a : List ℚ) : ℚ := cov1 a a

/-- Population variance with ddof=0, as numpy var default. -/
def var0 (a : List ℚ) : ℚ := sumDev a a / (a.length : ℚ)

/-- Exact square root of a nonnegative rational: some r when r * r = q with
r rational, none when the square root is irrational or q is negative. -/
def ratSqrt (q : ℚ) : Option ℚ :=
  if q < 0 then none
  else
    let sn := Nat.sqrt q.num.toNat
    let sd := Nat.sqrt q.den
    if sn * sn = q.num.toNat ∧ sd * sd = q.den then some ((sn : ℚ) / (sd : ℚ))
    else none

/-- Pearson correlation of two equal-length series, as numpy corrcoef
entry [0, 1]: cov1 divided by the square root of the product of the two
ddof=1 variances.  Returns none when either variance is zero (numpy would
produce NaN) or when the exact square root is irrational (the value exists
in float but is not representable in the rational model). -/
def corrcoef (a b : List ℚ) : Option ℚ :=
  match ratSqrt (var1 a * var1 b) with
  | none => none
  | some s => if s = 0 then none else some (cov1 a b / s)

/-- The 2 x 2 smoothed correlation matrix owned by the engine. -/
structure CorrMat where
  m00 : ℚ
  m01 : ℚ
  m10 : ℚ
  m11 : ℚ
  deriving DecidableEq, Repr

/-- The correlation-matrix update performed inside calculate_hedge_ratio:
direct initialisation from the observed correlation on the first call,
exponential smoothing 0.95 old + 0.05 new afterwards. -/
def updateCorr (cm : Option CorrMat) (r : ℚ) : CorrMat :=
  match cm with
  | none => ⟨1, r, r, 1⟩
  | some m =>
      ⟨(95/100) * m.m00 + (5/100) * 1, (95/100) * m.m01 + (5/100) * r,
       (95/100) * m.m10 + (5/100) * r, (95/100) * m.m11 + (5/100) * 1⟩

/-- Possible outcomes of calculate_hedge_ratio.  The source returns the bare
float 0.0 on short input (scalar), a dict with keys correlation, beta,
hedge_ratio on the main path (result), raises a numpy ValueError when the
two series have different lengths (raised), and nonrep marks a value that
exists as a float but is not exactly representable in rational arithmetic
(a modelling artefact, not a Python exception). -/
inductive HedgeOut where
  | raised (msg : String)
  | nonrep
  | scalar (v : ℚ)
  | result (correlation beta hedge_ratio : ℚ)
  deriving DecidableEq, Repr

/-- Exception text for the numpy shape error raised by corrcoef and cov on
series of different lengths (representative text). -/
def msgDimMismatch : String := "all the input array dimensions must match exactly"

/-- Embedding of QuantBackend.calculate_hedge_ratio.  State in, state out:
the engine correlation matrix is threaded explicitly.  Mirrors the source:
early return of the bare scalar 0.0 when either series has fewer than two
observations (state untouched), then correlation, beta with the numpy
ddof quirk (cov ddof=1 over var ddof=0), matrix update, and the returned
dict with hedge_ratio = beta * std(pair1) / std(pair2). -/
def calculate_hedge_ratio (cm : Option CorrMat) (pair1 pair2 : List ℚ) :
    HedgeOut × Option CorrMat :=
  if pair1.length < 2 ∨ pair2.length < 2 then (HedgeOut.scalar 0, cm)
  else if pair1.length ≠ pair2.length then (HedgeOut.raised msgDimMismatch, cm)
  else
    match corrcoef pair1 pair2 with
    | none => (HedgeOut.nonrep, cm)
    | some r =>
      let cm2 := some (updateCorr cm r)
      let b := cov1 pair1 pair2 / var0 pair2
      match ratSqrt (var0 pair1 / var0 pair2) with
      | none => (HedgeOut.nonrep, cm2)
      | some sr => (HedgeOut.result r b (b * sr), cm2)

/-- The two-dimensional Kalman filter state: state vector x = (x0, x1) and
covariance P, as set up by initialize_kalman_filter with H = [1 0],
R = 0.1, Q = 0.01 I, and the filterpy default F = I. -/
structure KState where
  x0 : ℚ
  x1 : ℚ
  p00 : ℚ
  p01 : ℚ
  p10 : ℚ
  p11 : ℚ
  deriving DecidableEq, Repr

/-- The filterpy predict step with F = I, B absent: x unchanged,
P becomes P + Q with Q = 0.01 I. -/
def kpredict (s : KState) : KState :=
  { s with p00 := s.p00 + 1/100, p11 := s.p11 + 1/100 }

/-- The filterpy update step for one scalar observation with H = [1 0] and
R = 0.1: innovation y, gain K = P Ht / S with S = p00 + 0.1, new state
x + K y, and the Joseph-form covariance (I - K H) P (I - K H)t + K R Kt. -/
def kupdate (s : KState) (z : ℚ) : KState :=
  let y := z - s.x0
  let S := s.p00 + 1/10
  let K0 := s.p00 / S
  let K1 := s.p10 / S
  { x0 := s.x0 + K0 * y
    x1 := s.x1 + K1 * y
    p00 := (1 - K0) * s.p00 * (1 - K0) + K0 * (1/10) * K0
    p01 := (1 - K0) * (s.p01 - K1 * s.p00) + K0 * (1/10) * K1
    p10 := (s.p10 - K1 * s.p00) * (1 - K0) + K1 * (1/10) * K0
    p11 := (s.p10 - K1 * s.p00) * (-K1) + (s.p11 - K1 * s.p01) + K1 * (1/10) * K1 }

/-- Exception text of the numpy LinAlgError raised when the innovation
covariance S is singular (inverted inside the filterpy update). -/
def msgSingular : String := "Singular matrix"

/-- Embedding of QuantBackend.calculate_zscore.  Returns the z-score in the
pair representation (num, var) denoting num / sqrt var, together with the
new filter state.  Uninitialized filter: literal 0.0, state untouched.
Otherwise predict, then update, then the source reads mean = x[0] and
std = sqrt(P[0,0]) from the post-update state; std == 0 returns 0.0,
else (spread - mean) / std.  A singular S aborts inside update with the
predicted covariance already written (the filterpy predict mutates first). -/
def zscoreStep (k : Option KState) (obs : ℚ) :
    Except String (ℚ × ℚ) × Option KState :=
  match k with
  | none => (Except.ok (0, 1), none)
  | some s =>
    let sp := kpredict s
    if sp.p00 + 1/10 = 0 then (Except.error msgSingular, some sp)
    else
      let su := kupdate sp obs
      if su.p00 = 0 then (Except.ok (0, 1), some su)
      else (Except.ok (obs - su.x0, su.p00), some su)

/-- Modelled from the spec wording of the z-score contract: the pair
(observation - predicted level, predicted variance), with level and
variance taken after the predict step and before the update step.  This is
the comparison definition for claim C3; the source definition is
zscoreStep above. -/
def spec_zscore_predicted (s : KState) (obs : ℚ) : ℚ × ℚ :=
  (obs - (kpredict s).x0, (kpredict s).p00)

/-- The engine state owned by QuantBackend: Kalman filter (None until
initialized), regime label history, whether the hidden-Markov model has
been fitted, whether the ensemble classifier has been trained (it never is
within this code: nothing calls fit on it), and the smoothed correlation
matrix (None until the first successful hedge call). -/
structure EngineState where
  kalman : Option KState
  regime_history : List Nat
  hmm_fitted : Bool
  rf_trained : Bool
  correlation_matrix : Option CorrMat
  deriving DecidableEq, Repr

/-- The state built by QuantBackend.__init__. -/
def engineInit : EngineState :=
  { kalman := none, regime_history := [], hmm_fitted := false,
    rf_trained := false, correlation_matrix := none }

/-- Embedding of initialize_kalman_filter: installs the given state vector
and covariance (H, R, Q are the fixed constants baked into kupdate). -/
def initialize_kalman_filter (s : EngineState) (a b c d e f : ℚ) : EngineState :=
  { s with kalman := some ⟨a, b, c, d, e, f⟩ }

/-- External capability providers (spec section 6): the hidden-Markov
predict returning the label appended to the history, the trained ensemble
classifier probability, and the float logarithm used by the stopping-time
and regime computations. -/
structure Ext where
  hmmLabel : List ℚ → Nat
  rfProba : List ℚ → ℚ
  logF : ℚ → ℚ

/-- A fixed concrete oracle, used by witnesses. -/
def ext0 : Ext := ⟨fun _ => 0, fun _ => 0, fun _ => 0⟩

/-- All elements equal (and the list nonempty): len(set(recent)) == 1. -/
def allSameLabel : List Nat → Bool
  | [] => false
  | a :: t => t.all (fun x => x == a)

/-- Embedding of QuantBackend.detect_regime.  Fewer than 100 accumulated
labels: returns False at once, state untouched, the external model never
consulted (the oracle is not applied).  Otherwise the model is fitted if
not yet fitted, the predicted label for the latest return is appended, and
the result is whether the last 10 labels are all identical. -/
def detect_regime (ext : Ext) (s : EngineState) (price_data : List ℚ) :
    Bool × EngineState :=
  if s.regime_history.length < 100 then (false, s)
  else
    let s1 := if s.hmm_fitted then s else { s with hmm_fitted := true }
    let h2 := s1.regime_history ++ [ext.hmmLabel price_data]
    let s2 := { s1 with regime_history := h2 }
    if 10 ≤ h2.length then (allSameLabel (h2.drop (h2.length - 10)), s2)
    else (false, s2)

/-- Embedding of calculate_ml_probability: 0.5 while the classifier is
untrained (hasattr classes_ is false), the external prediction once
trained. -/
def calculate_ml_probability (ext : Ext) (trained : Bool) (features : List ℚ) : ℚ :=
  if trained then ext.rfProba features else 1/2

/-- Embedding of calculate_optimal_stop: False on fewer than two points,
else the HJB condition mean(returns) - 0.5 * 2.0 * std(returns)^2 < 0 on
the log-return series (0.5 * 2.0 * var0 = var0). -/
def calculate_optimal_stop (logF : ℚ → ℚ) (position_data : List ℚ) : Bool :=
  if position_data.length < 2 then false
  else
    let rs := diffList (position_data.map logF)
    decide (mean rs - var0 rs < 0)

/-- The Signal Bundle assembled by process_mt5_data (the response dict).
The zScore field keeps the pair representation of the scalar. -/
structure Bundle where
  zScore : ℚ × ℚ
  isDirectionalRegime : Bool
  mlProbability : ℚ
  kalmanSignal : Bool
  hedgeSignal : Bool
  correlation : ℚ
  optimalStopSignal : Bool
  deriving DecidableEq, Repr

/-- The float comparison abs(zscore) > 2.0 on the pair representation
(num, var) of num / sqrt var: for var > 0 it holds exactly when
num^2 > 4 var; for var = 0 the float quotient is infinite (true unless
num = 0, whose quotient is NaN); for var < 0 the float value is NaN and
every comparison with NaN is false. -/
def absGtTwoB (z : ℚ × ℚ) : Bool := decide (0 ≤ z.2 ∧ 4 * z.2 < z.1 ^ 2)

/-- The response-dict construction of process_mt5_data, lines 192-200:
kalmanSignal = abs(zscore) > 2.0, hedgeSignal = correlation > 0.7, both
strict. -/
def mkResponse (z : ℚ × ℚ) (regime : Bool) (mlProb : ℚ) (corr : ℚ)
    (stop : Bool) : Bundle :=
  { zScore := z
    isDirectionalRegime := regime
    mlProbability := mlProb
    kalmanSignal := absGtTwoB z
    hedgeSignal := decide (7/10 < corr)
    correlation := corr
    optimalStopSignal := stop }

/-- The wire response: either the full bundle or the single-field error
object, never both (the sum type is the exactly-one-of-the-two schema). -/
inductive Response where
  | ok (b : Bundle)
  | error (msg : String)
  deriving DecidableEq, Repr

/-- The decoded request.  malformed carries the text of the JSONDecodeError
raised by json.loads; obj carries the four fields of the documented wire
format, each None when the key is absent (prices and volumes then raise
KeyError).  Per the documented wire format, prices and volumes are
one-dimensional numeric arrays. -/
inductive ParsedData where
  | malformed (msg : String)
  | obj (prices volumes pair1_prices pair2_prices : Option (List ℚ))
  deriving DecidableEq, Repr

/-- Exception text for KeyError on the prices field (representative). -/
def msgMissingPrices : String := "missing required field prices"

/-- Exception text for KeyError on the volumes field (representative). -/
def msgMissingVolumes : String := "missing required field volumes"

/-- Exception text of the IndexError raised by prices[-1] on an empty
array. -/
def msgEmptyPrices : String := "index -1 is out of bounds for axis 0 with size 0"

/-- Exception text of the ValueError raised by np.column_stack when the
stacked one-dimensional arrays have different lengths (representative). -/
def msgStack : String :=
  "all the input array dimensions except for the concatenation axis must match exactly"

/-- Exception text of the TypeError raised by hedge_data[...] when
calculate_hedge_ratio returned the bare float 0.0. -/
def msgSubscript : String := "float object is not subscriptable"

/-- Marker message for a float value that is not exactly representable in
the rational model (modelling artefact, see HedgeOut.nonrep). -/
def msgNonrep : String := "value not exactly representable in exact rational arithmetic"

/-- Embedding of np.column_stack on three one-dimensional arrays followed
by reshape(1, -1): succeeds with the row-major flattening exactly when the
three lengths agree, raises ValueError otherwise. -/
def columnStack3 (a b c : List ℚ) : Except String (List ℚ) :=
  if a.length = b.length ∧ a.length = c.length then
    Except.ok (((a.zip (b.zip c)).map (fun p => [p.1, p.2.1, p.2.2])).flatten)
  else Except.error msgStack

/-- Embedding of QuantBackend.process_mt5_data.  The try/except boundary of
the source is the totality of this function: every exception path becomes
a Response.error carrying the exception text, paired with the engine state
as mutated up to the point of the raise (Python mutations before an
exception persist).  The steps mirror the source order: decode, read the
latest price, z-score, regime, ML feature stack, ML probability, hedge
(legs defaulting to the primary price series), optimal stop, response
assembly. -/
def process (ext : Ext) (s : EngineState) (input : ParsedData) :
    Response × EngineState :=
  match input with
  | ParsedData.malformed m => (Response.error m, s)
  | ParsedData.obj none _ _ _ => (Response.error msgMissingPrices, s)
  | ParsedData.obj (some _) none _ _ => (Response.error msgMissingVolumes, s)
  | ParsedData.obj (some ps) (some vs) g1 g2 =>
    match ps.getLast? with
    | none => (Response.error msgEmptyPrices, s)
    | some lp =>
      match zscoreStep s.kalman lp with
      | (Except.error m, k1) => (Response.error m, { s with kalman := k1 })
      | (Except.ok z, k1) =>
        let s1 : EngineState := { s with kalman := k1 }
        let rg := detect_regime ext s1 ps
        match columnStack3 (takeLast 20 ps) (takeLast 20 vs) (diffList (takeLast 20 ps)) with
        | Except.error m => (Response.error m, rg.2)
        | Except.ok feats =>
          let mlProb := calculate_ml_probability ext rg.2.rf_trained feats
          match calculate_hedge_ratio rg.2.correlation_matrix (g1.getD ps) (g2.getD ps) with
          | (HedgeOut.raised m, cm2) =>
              (Response.error m, { rg.2 with correlation_matrix := cm2 })
          | (HedgeOut.nonrep, cm2) =>
              (Response.error msgNonrep, { rg.2 with correlation_matrix := cm2 })
          | (HedgeOut.scalar _, cm2) =>
              (Response.error msgSubscript, { rg.2 with correlation_matrix := cm2 })
          | (HedgeOut.result corr _ _, cm2) =>
              (Response.ok (mkResponse z rg.1 mlProb corr (calculate_optimal_stop ext.logF ps)),
               { rg.2 with correlation_matrix := cm2 })

/-- True exactly on the error responses. -/
def isError : Response → Bool
  | Response.ok _ => false
  | Response.error _ => true

/-- True exactly on the success responses. -/
def isOkResp : Response → Bool
  | Response.ok _ => true
  | Response.error _ => false

/-- A response is well shaped: a full bundle, or an error whose message is
nonempty. -/
def goodResponse : Response → Bool
  | Response.ok _ => true
  | Response.error m => !(m == "")

/-- The directional-regime flag of a response is not true: vacuously on
errors, the negation of the bundle field on successes. -/
def regimeFlagFalse : Response → Bool
  | Response.ok b => !b.isDirectionalRegime
  | Response.error _ => true

/-- Side condition on decoded inputs: the decoder never produces an empty
exception text (json.JSONDecodeError messages are never empty). -/
def msgOK : ParsedData → Prop
  | ParsedData.malformed m => m ≠ ""
  | ParsedData.obj _ _ _ _ => True

/-- The state-mutating operations of QuantBackend, one constructor per
public method (the stateless methods detect_cointegration,
calculate_optimal_stop and the read-only calculate_ml_probability leave
the modelled state unchanged). -/
inductive Op where
  | initKalman (a b c d e f : ℚ)
  | zscoreOp (obs : ℚ)
  | regimeOp (prices : List ℚ)
  | hedgeOp (pair1 pair2 : List ℚ)
  | mlOp (features : List ℚ)
  | stopOp (prices : List ℚ)
  | processOp (input : ParsedData)

/-- One method call on the shared engine state. -/
def step (ext : Ext) (s : EngineState) (op : Op) : EngineState :=
  match op with
  | Op.initKalman a b c d e f => initialize_kalman_filter s a b c d e f
  | Op.zscoreOp obs => { s with kalman := (zscoreStep s.kalman obs).2 }
  | Op.regimeOp p => (detect_regime ext s p).2
  | Op.hedgeOp p1 p2 =>
      { s with correlation_matrix := (calculate_hedge_ratio s.correlation_matrix p1 p2).2 }
  | Op.mlOp _ => s
  | Op.stopOp _ => s
  | Op.processOp i => (process ext s i).2

/-- The engine state after an arbitrary sequence of method calls on a
freshly constructed engine. -/
def run (ext : Ext) (ops : List Op) : EngineState := ops.foldl (step ext) engineInit

/-- The price series 1, 2, ..., 30 of the end-to-end scenario. -/
def prices30 : List ℚ := (List.range 30).map (fun i => (i : ℚ) + 1)

/-- Thirty copies of 100, the volumes of the end-to-end scenario. -/
def volumes30 : List ℚ := List.replicate 30 (100 : ℚ)

/-- The decoded end-to-end request of the specification scenario. -/
def req30 : ParsedData := ParsedData.obj (some prices30) (some volumes30) none none

/-- A Kalman state with x = (0, 0) and P = I, as a plain call of
initialize_kalman_filter would install. -/
def kI : KState := ⟨0, 0, 1, 0, 0, 1⟩

/-- A Kalman state whose covariance entry p00 is -0.01, so that the
predicted variance is exactly zero. -/
def kZ : KState := ⟨0, 0, -1/100, 0, 0, 0⟩

/-- The regime machinery has never engaged: empty label history and the
hidden-Markov model unfitted. -/
def regimeUntouched (s : EngineState) : Prop :=
  s.regime_history = [] ∧ s.hmm_fitted = false

theorem diffList_length (l : List ℚ) : (diffList l).length = l.length - 1 := by
  induction l with
  | nil => rfl
  | cons a t ih =>
    cases t with
    | nil => rfl
    | cons b t2 =>
      simp only [diffList, List.length_cons] at ih ⊢
      omega

theorem ne_nil_of_getLast (ps : List ℚ) (lp : ℚ) (h : ps.getLast? = some lp) :
    ps ≠ [] := by
  intro hE
  rw [hE] at h
  simp at h

theorem columnStack_fails (ps vs : List ℚ) (h : ps ≠ []) :
    columnStack3 (takeLast 20 ps) (takeLast 20 vs) (diffList (takeLast 20 ps)) =
      Except.error msgStack := by
  have hp : 0 < ps.length := List.length_pos.mpr h
  have hlen : (takeLast 20 ps).length = ps.length - (ps.length - 20) := by
    simp [takeLast]
  have hd := diffList_length (takeLast 20 ps)
  have hneg : ¬((takeLast 20 ps).length = (takeLast 20 vs).length ∧
      (takeLast 20 ps).length = (diffList (takeLast 20 ps)).length) := by
    rintro ⟨-, hc⟩
    omega
  simp only [columnStack3, if_neg hneg]

theorem detect_regime_cold (ext : Ext) (s : EngineState) (p : List ℚ)
    (h : s.regime_history.length < 100) : detect_regime ext s p = (false, s) := by
  simp only [detect_regime, if_pos h]

theorem zscoreStep_error_msg (k : Option KState) (obs : ℚ) (m : String)
    (k2 : Option KState) (h : zscoreStep k obs = (Except.error m, k2)) :
    m = msgSingular := by
  cases k with
  | none => simp [zscoreStep] at h
  | some s =>
    simp only [zscoreStep] at h
    split at h
    · injection h with h1 h2
      injection h1 with h3
      exact h3.symm
    · split at h
      · injection h with h1 h2
        exact Except.noConfusion h1
      · injection h with h1 h2
        exact Except.noConfusion h1

theorem hedge_matrix_update (cm : Option CorrMat) (p1 p2 : List ℚ) (r : ℚ)
    (hl1 : 2 ≤ p1.length) (hl2 : 2 ≤ p2.length) (he : p1.length = p2.length)
    (hc : corrcoef p1 p2 = some r) :
    (calculate_hedge_ratio cm p1 p2).2 = some (updateCorr cm r) := by
  have hne : ¬(p1.length ≠ p2.length) := fun hx => hx he
  simp only [calculate_hedge_ratio,
    if_neg (show ¬(p1.length < 2 ∨ p2.length < 2) by omega),
    if_neg hne, hc]
  cases ratSqrt (var0 p1 / var0 p2) <;> rfl

theorem detect_regime_on_empty (ext : Ext) (s : EngineState) (p : List ℚ)
    (h : regimeUntouched s) : detect_regime ext s p = (false, s) :=
  detect_regime_cold ext s p (by rw [h.1]; decide)

theorem process_preserves (ext : Ext) (s : EngineState) (i : ParsedData)
    (h : regimeUntouched s) : regimeUntouched (process ext s i).2 := by
  cases i with
  | malformed m => exact h
  | obj pf vf g1 g2 =>
    cases pf with
    | none => exact h
    | some ps =>
      cases vf with
      | none => exact h
      | some vs =>
        cases hlp : ps.getLast? with
        | none => simp only [process, hlp]; exact h
        | some lp =>
          cases hz : zscoreStep s.kalman lp with
          | mk r1 k1 =>
            have hk : regimeUntouched { s with kalman := k1 } := h
            cases r1 with
            | error m => simp only [process, hlp, hz]; exact hk
            | ok z =>
              simp only [process, hlp, hz,
                columnStack_fails ps vs (ne_nil_of_getLast ps lp hlp),
                detect_regime_on_empty ext { s with kalman := k1 } ps hk]
              exact hk

theorem process_flag (ext : Ext) (s : EngineState) (i : ParsedData) :
    regimeFlagFalse (process ext s i).1 = true := by
  cases i with
  | malformed m => rfl
  | obj pf vf g1 g2 =>
    cases pf with
    | none => rfl
    | some ps =>
      cases vf with
      | none => rfl
      | some vs =>
        cases hlp : ps.getLast? with
        | none => simp only [process, hlp]; rfl
        | some lp =>
          cases hz : zscoreStep s.kalman lp with
          | mk r1 k1 =>
            cases r1 with
            | error m => simp only [process, hlp, hz]; rfl
            | ok z =>
              simp only [process, hlp, hz,
                columnStack_fails ps vs (ne_nil_of_getLast ps lp hlp)]
              rfl

theorem step_preserves (ext : Ext) (s : EngineState) (op : Op)
    (h : regimeUntouched s) : regimeUntouched (step ext s op) := by
  cases op with
  | initKalman a b c d e f => exact h
  | zscoreOp obs => exact h
  | regimeOp p =>
    simp only [step, detect_regime_on_empty ext s p h]
    exact h
  | hedgeOp p1 p2 => exact h
  | mlOp fs => exact h
  | stopOp ps => exact h
  | processOp i => exact process_preserves ext s i h

theorem run_preserves (ext : Ext) (ops : List Op) :
    regimeUntouched (run ext ops) := by
  show regimeUntouched (ops.foldl (step ext) engineInit)
  suffices hgen : ∀ (l : List Op) (s : EngineState), regimeUntouched s →
      regimeUntouched (l.foldl (step ext) s) from
    hgen ops engineInit ⟨rfl, rfl⟩
  intro l
  induction l with
  | nil => intro s hs; exact hs
  | cons op t ih =>
    intro s hs
    exact ih (step ext s op) (step_preserves ext s op hs)

/-- C1: the end-to-end scenario of the specification (prices 1..30, thirty
volumes of 100, fresh engine) does not produce the promised success bundle:
np.column_stack receives arrays of lengths 20, 20 and 19, raises the shape
ValueError, and the error descriptor is returned with the engine state
unchanged.  This evaluates the code at the failing input of the code bug. -/
theorem c1_request30_returns_error (ext : Ext) :
    process ext engineInit req30 = (Response.error msgStack, engineInit) := rfl

/-- C2: for every engine state and every request of the documented wire
format (one-dimensional numeric arrays, including the malformed and
missing-field cases), process_mt5_data returns the error descriptor and
never a success bundle: the ML feature stack receives lengths n, n, n-1
which can never all agree, and an empty prices array fails earlier at
prices[-1]. -/
theorem c2_wire_format_always_errors (ext : Ext) (s : EngineState)
    (input : ParsedData) : isError (process ext s input).1 = true := by
  cases input with
  | malformed m => rfl
  | obj pf vf g1 g2 =>
    cases pf with
    | none => rfl
    | some ps =>
      cases vf with
      | none => rfl
      | some vs =>
        cases hlp : ps.getLast? with
        | none => simp only [process, hlp]; rfl
        | some lp =>
          cases hz : zscoreStep s.kalman lp with
          | mk r1 k1 =>
            cases r1 with
            | error m => simp only [process, hlp, hz]; rfl
            | ok z =>
              simp only [process, hlp, hz,
                columnStack_fails ps vs (ne_nil_of_getLast ps lp hlp)]
              rfl

/-- C3 (amended): for an initialized State Estimator the returned z-score
is (observation - level) / sqrt(variance) with level and variance read from
the filter state after the update step has blended in the observation
(posterior values), not after the predict step; stated in the pair
representation, under the hypotheses that the innovation covariance is
invertible and the posterior variance nonzero (the guarded paths). -/
theorem c3_zscore_uses_posterior_state (s : KState) (obs : ℚ)
    (h1 : (kpredict s).p00 + 1/10 ≠ 0)
    (h2 : (kupdate (kpredict s) obs).p00 ≠ 0) :
    (zscoreStep (some s) obs).1 =
      Except.ok (obs - (kupdate (kpredict s) obs).x0, (kupdate (kpredict s) obs).p00) := by
  simp only [zscoreStep]
  rw [if_neg h1, if_neg h2]

/-- C3 witness: the amended theorem evaluated at the filter state
x = (0, 0), P = I and observation 1. -/
theorem c3_zscore_uses_posterior_state_witness :
    ((kpredict kI).p00 + 1/10 ≠ 0 ∧ (kupdate (kpredict kI) 1).p00 ≠ 0) ∧
    (zscoreStep (some kI) 1).1 =
      Except.ok (1 - (kupdate (kpredict kI) 1).x0, (kupdate (kpredict kI) 1).p00) :=
  ⟨⟨by norm_num [kpredict, kI], by norm_num [kupdate, kpredict, kI]⟩,
    c3_zscore_uses_posterior_state kI 1 (by norm_num [kpredict, kI])
      (by norm_num [kupdate, kpredict, kI])⟩

/-- C3 counterexample: at the filter state x = (0, 0), P = I with
observation 1 the source returns 10/111 over sqrt(101/1110), computed from
the posterior level 101/111 and posterior variance 101/1110, while the
claim prescribes 1 over sqrt(101/100) from the predicted level 0 and
predicted variance 101/100; the two denoted real numbers differ, so the
claim as stated is false. -/
theorem c3_zscore_predicted_counterexample :
    (zscoreStep (some kI) 1).1 = Except.ok (10/111, 101/1110) ∧
    spec_zscore_predicted kI 1 = (1, 101/100) ∧
    (10/111 : ℝ) / Real.sqrt (101/1110) ≠ (1 : ℝ) / Real.sqrt (101/100) := by
  refine ⟨by norm_num [zscoreStep, kI, kpredict, kupdate],
    by norm_num [spec_zscore_predicted, kpredict, kI], ?_⟩
  have hv1 : (0:ℝ) < 101/1110 := by norm_num
  have hv2 : (0:ℝ) < 101/100 := by norm_num
  have hs1 : 0 < Real.sqrt (101/1110) := Real.sqrt_pos.mpr hv1
  have hs2 : 0 < Real.sqrt (101/100) := Real.sqrt_pos.mpr hv2
  intro h
  rw [div_eq_div_iff hs1.ne' hs2.ne'] at h
  have h2 : ((10:ℝ)/111 * Real.sqrt (101/100)) ^ 2 =
      (1 * Real.sqrt (101/1110)) ^ 2 := by rw [h]
  rw [mul_pow, mul_pow, Real.sq_sqrt hv1.le, Real.sq_sqrt hv2.le] at h2
  norm_num at h2

/-- C4 (amended): when either input series has fewer than 2 observations
the Hedge Estimator returns the bare neutral scalar 0.0, not a
correlation/beta/hedge_ratio mapping, leaves the correlation matrix
untouched, and raises no exception. -/
theorem c4_short_series_scalar_zero (cm : Option CorrMat) (p1 p2 : List ℚ)
    (h : p1.length < 2 ∨ p2.length < 2) :
    calculate_hedge_ratio cm p1 p2 = (HedgeOut.scalar 0, cm) := by
  simp only [calculate_hedge_ratio, if_pos h]

/-- C4 witness: the amended theorem evaluated on a one-element first
series. -/
theorem c4_short_series_scalar_zero_witness :
    ([(5:ℚ)].length < 2 ∨ [(1:ℚ), 2].length < 2) ∧
    calculate_hedge_ratio none [(5:ℚ)] [(1:ℚ), 2] = (HedgeOut.scalar 0, none) :=
  ⟨by decide, c4_short_series_scalar_zero none [(5:ℚ)] [(1:ℚ), 2] (by decide)⟩

/-- C4 counterexample: on the one-element first series the value returned
is the bare scalar 0.0, which is not a result mapping with fields
correlation = 0, beta = 0, hedge_ratio = 0, so the claimed return shape is
false at this input. -/
theorem c4_short_series_counterexample :
    (calculate_hedge_ratio none [(5:ℚ)] [(1:ℚ), 2]).1 = HedgeOut.scalar 0 ∧
    HedgeOut.scalar 0 ≠ HedgeOut.result 0 0 0 :=
  ⟨rfl, by decide⟩

/-- C5: starting from an unset correlation matrix, a first successful hedge
call observing correlation r sets the matrix directly to [[1, r], [r, 1]]
(no smoothing), and a second successful call observing r2 produces the
exponentially smoothed matrix whose off-diagonal entry is
0.95 r + 0.05 r2. -/
theorem c5_correlation_smoothing (p1 p2 q1 q2 : List ℚ) (r r2 : ℚ)
    (hl1 : 2 ≤ p1.length) (hl2 : 2 ≤ p2.length) (he1 : p1.length = p2.length)
    (hl3 : 2 ≤ q1.length) (hl4 : 2 ≤ q2.length) (he2 : q1.length = q2.length)
    (hc1 : corrcoef p1 p2 = some r) (hc2 : corrcoef q1 q2 = some r2) :
    (calculate_hedge_ratio none p1 p2).2 = some ⟨1, r, r, 1⟩ ∧
    (calculate_hedge_ratio (calculate_hedge_ratio none p1 p2).2 q1 q2).2 =
      some ⟨(95/100) * 1 + (5/100) * 1, (95/100) * r + (5/100) * r2,
            (95/100) * r + (5/100) * r2, (95/100) * 1 + (5/100) * 1⟩ := by
  have h1 := hedge_matrix_update none p1 p2 r hl1 hl2 he1 hc1
  have h2 := hedge_matrix_update (calculate_hedge_ratio none p1 p2).2 q1 q2 r2
    hl3 hl4 he2 hc2
  refine ⟨by rw [h1]; rfl, ?_⟩
  rw [h2, h1]
  rfl

/-- C5 witness: first call on the series (1,2) and (2,4) observes
correlation 1, second call on (1,2,3) and (3,2,1) observes correlation -1;
the matrix is [[1,1],[1,1]] after the first call and its off-diagonal
entry is 0.95 - 0.05 = 0.9 after the second. -/
theorem c5_correlation_smoothing_witness :
    corrcoef [(1:ℚ), 2] [(2:ℚ), 4] = some 1 ∧
    corrcoef [(1:ℚ), 2, 3] [(3:ℚ), 2, 1] = some (-1) ∧
    (calculate_hedge_ratio none [(1:ℚ), 2] [(2:ℚ), 4]).2 = some ⟨1, 1, 1, 1⟩ ∧
    (calculate_hedge_ratio (calculate_hedge_ratio none [(1:ℚ), 2] [(2:ℚ), 4]).2
        [(1:ℚ), 2, 3] [(3:ℚ), 2, 1]).2 = some ⟨1, 9/10, 9/10, 1⟩ := by
  have hc1 : corrcoef [(1:ℚ), 2] [(2:ℚ), 4] = some 1 := by
    norm_num [corrcoef, ratSqrt, var1, cov1, sumDev, mean]
  have hc2 : corrcoef [(1:ℚ), 2, 3] [(3:ℚ), 2, 1] = some (-1) := by
    norm_num [corrcoef, ratSqrt, var1, cov1, sumDev, mean]
  have h := c5_correlation_smoothing [(1:ℚ), 2] [(2:ℚ), 4] [(1:ℚ), 2, 3] [(3:ℚ), 2, 1]
    1 (-1) (by decide) (by decide) (by decide) (by decide) (by decide) (by decide)
    hc1 hc2
  refine ⟨hc1, hc2, h.1, ?_⟩
  rw [h.2]
  norm_num

/-- C6: in the assembled bundle kalmanSignal holds exactly when the
z-score value exceeds 2 in absolute value, strictly, and hedgeSignal holds
exactly when the correlation exceeds 0.7, strictly.  In the pair
representation (num, var) with var positive, the float comparison
abs(num / sqrt var) > 2 is exactly num^2 > 4 var; for a plain scalar q
(variance 1) it is exactly 2 < abs q.  The boundary cases z-score = 2.0
and correlation = 0.7 give false. -/
theorem c6_thresholds_strict (z : ℚ × ℚ) (reg : Bool) (ml corr : ℚ) (stop : Bool) :
    ((mkResponse z reg ml corr stop).hedgeSignal = true ↔ 7/10 < corr) ∧
    (0 < z.2 → ((mkResponse z reg ml corr stop).kalmanSignal = true ↔
      4 * z.2 < z.1 ^ 2)) ∧
    (∀ q : ℚ, (mkResponse (q, 1) reg ml corr stop).kalmanSignal = true ↔ 2 < |q|) ∧
    (mkResponse (2, 1) reg ml corr stop).kalmanSignal = false ∧
    (mkResponse z reg ml (7/10) stop).hedgeSignal = false := by
  refine ⟨?_, ?_, ?_, ?_, ?_⟩
  · simp [mkResponse]
  · intro hz
    simp only [mkResponse, absGtTwoB, decide_eq_true_eq]
    constructor
    · rintro ⟨-, h⟩; exact h
    · intro h; exact ⟨hz.le, h⟩
  · intro q
    simp only [mkResponse, absGtTwoB, decide_eq_true_eq]
    constructor
    · rintro ⟨-, h⟩
      nlinarith [sq_abs q, abs_nonneg q]
    · intro h
      refine ⟨by norm_num, ?_⟩
      nlinarith [sq_abs q, abs_nonneg q]
  · simp only [mkResponse, absGtTwoB, decide_eq_false_iff_not]
    norm_num
  · simp only [mkResponse, decide_eq_false_iff_not]
    norm_num

/-- C6 witness: the strict kalman threshold evaluated at the scalar
z-score 3. -/
theorem c6_thresholds_strict_witness :
    (0:ℚ) < ((3:ℚ), (1:ℚ)).2 ∧
    ((mkResponse ((3:ℚ), (1:ℚ)) false (1/2) 1 false).kalmanSignal = true ↔
      4 * ((3:ℚ), (1:ℚ)).2 < ((3:ℚ), (1:ℚ)).1 ^ 2) :=
  ⟨by norm_num,
    (c6_thresholds_strict ((3:ℚ), (1:ℚ)) false (1/2) 1 false).2.1 (by norm_num)⟩

/-- C7: for every request, malformed JSON included, the processing boundary
yields a total function into the response sum type: the result is either a
full bundle or the single-field error object with a nonempty message, and
it is never both.  The side condition msgOK records that the JSON decoder
never raises with an empty message. -/
theorem c7_error_boundary (ext : Ext) (s : EngineState) (input : ParsedData)
    (h : msgOK input) :
    goodResponse (process ext s input).1 = true ∧
    ¬(isOkResp (process ext s input).1 = true ∧
      isError (process ext s input).1 = true) := by
  constructor
  · cases input with
    | malformed m =>
      have hm : m ≠ "" := h
      simp only [process, goodResponse]
      simpa using hm
    | obj pf vf g1 g2 =>
      cases pf with
      | none => rfl
      | some ps =>
        cases vf with
        | none => rfl
        | some vs =>
          cases hlp : ps.getLast? with
          | none => simp only [process, hlp]; rfl
          | some lp =>
            cases hz : zscoreStep s.kalman lp with
            | mk r1 k1 =>
              cases r1 with
              | error m =>
                have hm := zscoreStep_error_msg s.kalman lp m k1 hz
                subst hm
                simp only [process, hlp, hz]
                rfl
              | ok z =>
                simp only [process, hlp, hz,
                  columnStack_fails ps vs (ne_nil_of_getLast ps lp hlp)]
                rfl
  · rintro ⟨h1, h2⟩
    cases hr : (process ext s input).1 with
    | ok b => rw [hr] at h2; simp [isError] at h2
    | error m => rw [hr] at h1; simp [isOkResp] at h1

/-- C7 witness: the boundary theorem evaluated at a malformed request on a
fresh engine. -/
theorem c7_error_boundary_witness :
    msgOK (ParsedData.malformed "Expecting value") ∧
    (goodResponse (process ext0 engineInit (ParsedData.malformed "Expecting value")).1 = true ∧
     ¬(isOkResp (process ext0 engineInit (ParsedData.malformed "Expecting value")).1 = true ∧
       isError (process ext0 engineInit (ParsedData.malformed "Expecting value")).1 = true)) :=
  ⟨(by decide : ("Expecting value" : String) ≠ ""),
    c7_error_boundary ext0 engineInit (ParsedData.malformed "Expecting value")
      (by decide : ("Expecting value" : String) ≠ "")⟩

/-- C8: update on a never-initialized State Estimator returns exactly 0.0
(the pair (0, 1)) with no exception and no state change; and when the
variance entering the z-score denominator is exactly zero the result is
0.0 rather than a division by zero. -/
theorem c8_uninit_and_zero_variance :
    (∀ obs : ℚ, zscoreStep none obs = (Except.ok (0, 1), none)) ∧
    (∀ (s : KState) (obs : ℚ), (kpredict s).p00 + 1/10 ≠ 0 →
      (kupdate (kpredict s) obs).p00 = 0 →
      (zscoreStep (some s) obs).1 = Except.ok (0, 1)) := by
  constructor
  · intro obs; rfl
  · intro s obs h1 h2
    simp only [zscoreStep]
    rw [if_neg h1, if_pos h2]

/-- C8 witness: the zero-variance guard evaluated at a filter state whose
predicted variance is exactly zero (initial p00 = -0.01). -/
theorem c8_uninit_and_zero_variance_witness :
    ((kpredict kZ).p00 + 1/10 ≠ 0 ∧ (kupdate (kpredict kZ) 5).p00 = 0) ∧
    (zscoreStep (some kZ) 5).1 = Except.ok (0, 1) :=
  ⟨⟨by norm_num [kpredict, kZ], by norm_num [kupdate, kpredict, kZ]⟩,
    c8_uninit_and_zero_variance.2 kZ 5 (by norm_num [kpredict, kZ])
      (by norm_num [kupdate, kpredict, kZ])⟩

/-- C9: with fewer than 100 accumulated regime labels the Regime
Classifier returns false at once, leaves the state untouched, and never
consults the external hidden-Markov collaborator: the result is the same
under every oracle. -/
theorem c9_cold_start_false (ext ext2 : Ext) (s : EngineState) (p : List ℚ)
    (h : s.regime_history.length < 100) :
    detect_regime ext s p = (false, s) ∧
    detect_regime ext s p = detect_regime ext2 s p := by
  refine ⟨detect_regime_cold ext s p h, ?_⟩
  rw [detect_regime_cold ext s p h, detect_regime_cold ext2 s p h]

/-- C9 witness: the cold-start theorem evaluated on a fresh engine. -/
theorem c9_cold_start_false_witness :
    engineInit.regime_history.length < 100 ∧
    detect_regime ext0 engineInit [1] = (false, engineInit) :=
  ⟨by decide, (c9_cold_start_false ext0 ext0 engineInit [1] (by decide)).1⟩

/-- C10: in every engine state reachable from construction by any sequence
of method calls the regime label history is empty and the hidden-Markov
model is unfitted (the only append is behind the 100-label guard, which an
empty history never satisfies), the classifier still answers false there,
and no response carries a true directional-regime flag. -/
theorem c10_regime_history_stays_empty (ext : Ext) (ops : List Op) :
    (run ext ops).regime_history = [] ∧
    (run ext ops).hmm_fitted = false ∧
    (∀ p, detect_regime ext (run ext ops) p = (false, run ext ops)) ∧
    (∀ i, regimeFlagFalse (process ext (run ext ops) i).1 = true) := by
  have h := run_preserves ext ops
  refine ⟨h.1, h.2, ?_, ?_⟩
  · intro p
    exact detect_regime_on_empty ext (run ext ops) p h
  · intro i
    exact process_flag ext (run ext ops) i

end QuantBot
